import Mathlib

/-
Verification development for the Legal-document-summariser repository.

The repository contains two command-line programs built around the same idea:
a legacy summariser (`ldsum/core.py` plus `legal_summariser.py`) with a
keyword-counting detector `is_probably_legal`, and a structured summariser
(`src/legal_summariser/cli.py`) with a weighted heuristic detector
`offline_detect`, an online classification/summarisation path with a single
JSON-recovery retry, and a deterministic offline stub.

Text is modelled as `List Char`.  Python string operations used by the code
(`str.lower`, `str.strip`, `str.split`, substring containment, and the two
regular expressions `LEGAL_HINTS` and the company-suffix pattern) are embedded
as executable functions on `List Char`, restricted to ASCII (all inputs the
theorems evaluate are ASCII).  Network calls are external effects: the model
responses an invocation would receive are passed in as explicit arguments, and
a JSON parse of a response is modelled by an `Option` field carrying the
re-serialised parse result when the parse succeeds.
-/

namespace LegalSummariser

/-- ASCII whitespace, as recognised by Python `str.strip` / `str.split`
(space, tab, newline, carriage return, vertical tab, form feed). -/
def isPySpace (c : Char) : Bool :=
  c = ' ' || c = '\t' || c = '\n' || c = '\r' || c = '\x0b' || c = '\x0c'

/-- ASCII word character, as in the regex class backslash-w
(letters, digits, underscore). -/
def isWordChar (c : Char) : Bool :=
  c.isAlpha || c.isDigit || c = '_'

/-- Python `str.lower`, restricted to ASCII: lowercase every character. -/
def lowerL (t : List Char) : List Char :=
  t.map Char.toLower

/-- Python substring containment `nd in hay`: some contiguous slice of `hay`
equals `nd` (the empty needle is contained in everything). -/
def listContains (hay nd : List Char) : Bool :=
  match hay with
  | [] => nd.isEmpty
  | _ :: t => (nd.isPrefixOf hay) || listContains t nd

/-- Python `str.strip()` (ASCII whitespace): drop leading and trailing
whitespace, keeping interior whitespace. -/
def pyStrip (t : List Char) : List Char :=
  ((t.dropWhile isPySpace).reverse.dropWhile isPySpace).reverse

/-- Helper for `wordCount`: scan the characters keeping a flag that records
whether the previous character was inside a word. -/
def wcAux : List Char → Bool → Nat
  | [], _ => 0
  | c :: t, inw =>
    if isPySpace c then wcAux t false
    else (if inw then 0 else 1) + wcAux t true

/-- Python `len(text.split())`: number of maximal whitespace-separated runs. -/
def wordCount (t : List Char) : Nat :=
  wcAux t false

/-! ### Legacy detector (`ldsum/core.py`) -/

/-- The fixed keyword list `LEGAL_KEYWORDS` of `ldsum/core.py` (38 entries). -/
def LEGAL_KEYWORDS : List (List Char) :=
  (["agreement", "contract", "party", "parties", "shall", "hereby", "warranty",
    "representations", "liability", "indemnify", "indemnification",
    "governing law", "jurisdiction", "venue", "arbitration", "mediation",
    "term", "termination", "confidentiality", "non-disclosure", "nda",
    "consideration", "assignment", "force majeure", "severability",
    "entire agreement", "amendment", "effective date", "dispute resolution",
    "penalty", "fees", "payment", "license", "licence", "obligation",
    "clause", "herein", "whereas"] : List String).map String.toList

/-- Number of distinct entries of `LEGAL_KEYWORDS` that occur (case-insensitive
substring) in the text: the `score` computed by `is_probably_legal`. -/
def keywordScore (t : List Char) : Nat :=
  (LEGAL_KEYWORDS.filter (fun kw => listContains (lowerL t) kw)).length

/-- The legacy detector `is_probably_legal` of `ldsum/core.py`: false when the
text is empty or its stripped length is below 50, otherwise true exactly when
at least 2 distinct keywords occur. -/
def is_probably_legal (t : List Char) : Bool :=
  if t.isEmpty || (pyStrip t).length < 50 then false
  else decide (2 ≤ keywordScore t)

/-- Number of non-whitespace characters of a text (used to state the spec
claim about "non-whitespace characters", which the code does not compute). -/
def nonWsCount (t : List Char) : Nat :=
  (t.filter (fun c => !isPySpace c)).length

/-! ### Weighted heuristic detector (`src/legal_summariser/cli.py`) -/

/-- The literal alternatives of the `LEGAL_HINTS` regex (case-insensitive),
except the `section \d` alternative which is handled by `scanSectionDigit`. -/
def HINT_TERMS : List (List Char) :=
  (["agreement", "clause", "party", "parties", "effective date",
    "governing law", "termination", "warranty", "indemnif", "liability",
    "confidential", "hereby", "whereas"] : List String).map String.toList

/-- Do the characters start with `section ` followed by a digit? -/
def sectionDigitAt : List Char → Bool
  | 's' :: 'e' :: 'c' :: 't' :: 'i' :: 'o' :: 'n' :: ' ' :: d :: _ => d.isDigit
  | _ => false

/-- Does `section ` followed by a digit occur anywhere in the text? -/
def scanSectionDigit : List Char → Bool
  | [] => false
  | c :: t => sectionDigitAt (c :: t) || scanSectionDigit t

/-- The `LEGAL_HINTS.search` test of `cli.py` line 33: the regex is
case-insensitive, so the lowered text is searched for the lowercase literal
alternatives and the `section \d` alternative. -/
def hasLegalHint (t : List Char) : Bool :=
  HINT_TERMS.any (fun w => listContains (lowerL t) w) || scanSectionDigit (lowerL t)

/-- One step of the search for the regex alternative `\bLtd`: the boundary
assertion holds when there is no preceding character or it is a non-word
character (the preceding character is passed explicitly). -/
def scanBLtd : Option Char → List Char → Bool
  | _, [] => false
  | prev, c :: t =>
    ((match prev with
      | none => true
      | some p => !isWordChar p) &&
     (['L', 't', 'd'].isPrefixOf (c :: t))) || scanBLtd (some c) t

/-- Search for the regex alternative `Inc\.\b`: the literal `Inc.` followed by
a word character (the only way a word boundary can follow a dot). -/
def scanIncDot : List Char → Bool
  | 'I' :: 'n' :: 'c' :: '.' :: d :: r => isWordChar d || scanIncDot ('n' :: 'c' :: '.' :: d :: r)
  | _ :: t => scanIncDot t
  | [] => false

/-- The company-suffix test of `cli.py` line 39.  In the pattern
`\bLtd|LLC|PLC|Inc\.\b` the alternation binds loosely, so the boundary
assertions attach only to `Ltd` (before) and to `Inc.` (after); `LLC` and
`PLC` match as bare substrings.  The regex is case-sensitive. -/
def hasCompanySuffix (t : List Char) : Bool :=
  scanBLtd none t || listContains t ('L' :: ['L', 'C']) ||
    listContains t ('P' :: ['L', 'C']) || scanIncDot t

/-- The score computed by `offline_detect`, in tenths (the Python floats
0.6 / 0.2 / 0.2 become 6 / 2 / 2, exactly). -/
def score10 (t : List Char) : Nat :=
  (if hasLegalHint t then 6 else 0) +
    (if 120 < wordCount t then 2 else 0) +
    (if hasCompanySuffix t then 2 else 0)

/-- The detection record built by `offline_detect` / parsed from the model:
keys `is_legal`, `type`, `confidence`, `reason`. -/
structure DetectionResult where
  is_legal : Bool
  type : String
  confidence : ℚ
  reason : String
deriving DecidableEq, Repr

/-- The weighted heuristic detector `offline_detect` of `cli.py` lines 35-41.
The score values are exact multiples of one tenth, so Python rounding to two
decimals is the identity and the confidence is the clamped score itself. -/
def offline_detect (t : List Char) : DetectionResult :=
  { is_legal := decide (6 ≤ score10 t)
  , type := if 6 ≤ score10 t then "contract" else "other"
  , confidence := ((min (score10 t) 10 : Nat) : ℚ) / 10
  , reason := "heuristic" }

/-! ### Offline stub (`cli.py` lines 63-76) -/

/-- The exact output of `summarise_offline`: `json.dumps(data, ensure_ascii=False)`
of the fixed stub dictionary, with default separators and insertion key order. -/
def STUB_JSON : String :=
  "\x7b\"title\": \"Stub Summary (offline)\", \"parties\": [\"Alpha Ltd\", \"Beta LLC\"], \"purpose\": \"Demonstration-only summary without API.\", \"key_terms\": [\"confidentiality\", \"term\"], \"obligations\": [\"Do not disclose confidential information\"], \"risks\": [\"Stub mode may miss real risks\"], \"dates_deadlines\": [\"N/A\"], \"termination\": \"N/A\", \"governing_law\": \"N/A\", \"red_flags\": [\"This is a stub; run online for real output.\"]\x7d"

/-- The stub summariser `summarise_offline`: its parameter is ignored and the
fixed JSON text is returned. -/
def summarise_offline (_text : List Char) : List Char :=
  STUB_JSON.toList

/-! ### Online paths (`cli.py` lines 43-60 and 78-97)

A chat message and a request as assembled by `classify_online` /
`summarise_online`.  `jsonMode` records whether the request carries the
`response_format = json_object` constraint.  A model response is a raw text
together with the result of `json.loads` on it: `none` when the text is not
valid JSON, `some j` with `j` the canonical re-serialisation when it is.
The first attempt of each function is passed as an `Option`: `none` models
the request itself raising (JSON mode unsupported, transport failure), which
the code catches together with a parse failure.  The retry request is
modelled as returning a response; a transport failure on the retry would
propagate out of both functions as an exception. -/

structure Msg where
  role : String
  content : List Char
deriving DecidableEq

structure Request where
  msgs : List Msg
  jsonMode : Bool
  temperature : ℚ
deriving DecidableEq

structure ModelResp where
  raw : List Char
  parsed : Option (List Char)
deriving DecidableEq

/-- The system prompt of the structured summariser (`cli.py` lines 4-19). -/
def SUM_SYSTEM_PROMPT : String :=
  "You are a Legal Document Summariser.\nProduce a concise, structured brief for a lay reader and a lawyer.\n\nReturn JSON with these keys:\n- title\n- parties\n- purpose\n- key_terms\n- obligations\n- risks\n- dates_deadlines\n- termination\n- governing_law\n- red_flags\nKeep it faithful, neutral, and quote clauses when necessary.\n"

/-- The classification system instruction (`cli.py` line 45). -/
def CLASSIFY_PROMPT : String :=
  "Classify if the text is a legal document (e.g., contract, policy, statute, terms). Respond ONLY with JSON: \x7b\"is_legal\": bool, \"type\": string, \"confidence\": number, \"reason\": string\x7d"

/-- The extra system message appended on the summarisation retry. -/
def minifiedInstr : Msg :=
  ⟨"system", "Return only valid minified JSON.".toList⟩

/-- The extra system message appended on the classification retry. -/
def jsonOnlyInstr : Msg :=
  ⟨"system", "Return valid JSON only.".toList⟩

/-- The summarisation messages (`cli.py` lines 79-82). -/
def sumMessages (text : List Char) : List Msg :=
  [⟨"system", SUM_SYSTEM_PROMPT.toList⟩,
   ⟨"user", "Summarise the following legal text:\n\n".toList ++ text⟩]

/-- The classification messages (`cli.py` lines 44-47); the document is
truncated to 12000 characters. -/
def classifyMessages (text : List Char) : List Msg :=
  [⟨"system", CLASSIFY_PROMPT.toList⟩, ⟨"user", text.take 12000⟩]

/-- Result of the online summarisation: canonical JSON on a successful parse,
otherwise the raw model text as a degraded result. -/
inductive SumResult where
  | structured (j : List Char)
  | degraded (raw : List Char)
deriving DecidableEq

/-- The online summariser `summarise_online` (`cli.py` lines 78-97), returning
the result together with the list of requests issued.  The first request asks
for constrained JSON at temperature 0.2; when it raises or its content fails
to parse, exactly one retry is issued with `minifiedInstr` appended and no
JSON constraint, whose content is returned parsed when possible and raw
otherwise. -/
def summarise_online (text : List Char) (att1 : Option ModelResp) (att2 : ModelResp) :
    SumResult × List Request :=
  match att1 with
  | some r1 =>
    match r1.parsed with
    | some j => (SumResult.structured j, [⟨sumMessages text, true, 1/5⟩])
    | none =>
      (match att2.parsed with
       | some j => SumResult.structured j
       | none => SumResult.degraded att2.raw,
       [⟨sumMessages text, true, 1/5⟩, ⟨sumMessages text ++ [minifiedInstr], false, 1/5⟩])
  | none =>
    (match att2.parsed with
     | some j => SumResult.structured j
     | none => SumResult.degraded att2.raw,
     [⟨sumMessages text, true, 1/5⟩, ⟨sumMessages text ++ [minifiedInstr], false, 1/5⟩])

/-- The online classifier `classify_online` (`cli.py` lines 43-60), returning
the parse result together with the list of requests issued.  The first request
asks for constrained JSON at temperature 0; on any failure exactly one retry
is issued with `jsonOnlyInstr` appended and no JSON constraint, and a parse
failure of the retried response propagates as an error. -/
def classify_online (text : List Char) (att1 : Option ModelResp) (att2 : ModelResp) :
    Except Unit (List Char) × List Request :=
  match att1 with
  | some r1 =>
    match r1.parsed with
    | some j => (Except.ok j, [⟨classifyMessages text, true, 0⟩])
    | none =>
      (match att2.parsed with
       | some j => Except.ok j
       | none => Except.error (),
       [⟨classifyMessages text, true, 0⟩, ⟨classifyMessages text ++ [jsonOnlyInstr], false, 0⟩])
  | none =>
    (match att2.parsed with
     | some j => Except.ok j
     | none => Except.error (),
     [⟨classifyMessages text, true, 0⟩, ⟨classifyMessages text ++ [jsonOnlyInstr], false, 0⟩])

/-! ### Orchestrator (`cli.py` lines 99-129)

The sources of input and the observable outcome of one invocation of the
structured CLI.  Network interaction of the online path is abstracted into
two oracle arguments: the detection record obtained from `classify_online`
(`Except.error` models any exception up to and including the classification:
client construction, transport, or a parse failure after the retry) and the
summarisation result (`Except.error` models an exception during
summarisation).  `sys.exit(2)` and `sys.exit(3)` raise `SystemExit`, which
the `except Exception` handlers of `main` do not catch, so they terminate
the process with those codes. -/

inductive InputSpec where
  | filePath (contents : Option (List Char))
  | dash (tty : Bool) (contents : List Char)

inductive ReadErr where
  | usage
  | notFound
deriving DecidableEq

/-- The input acquisition `read_input` (`cli.py` lines 21-30): a path is read
from disk (`none` contents models `FileNotFoundError`), `-` on an interactive
terminal prints a usage hint and exits with code 2, and otherwise stdin is
read to the end. -/
def read_input : InputSpec → Except ReadErr (List Char)
  | InputSpec.filePath (some c) => Except.ok c
  | InputSpec.filePath none => Except.error ReadErr.notFound
  | InputSpec.dash true _ => Except.error ReadErr.usage
  | InputSpec.dash false c => Except.ok c

/-- The rejection payload `json.dumps(\x7b"error": "not_legal", "detector": det\x7d)`
printed before `sys.exit(3)`, as structured data. -/
structure RejectEnvelope where
  error : String
  detector : DetectionResult
deriving DecidableEq

inductive Outcome where
  | success (out : List Char)
  | usage
  | rejected (env : RejectEnvelope)
  | ioError

/-- The orchestrator `main` of the structured CLI (`cli.py` lines 99-129),
as a function of the input source, the `--offline` and `--allow-non-legal`
flags, and the two online oracles. -/
def main (inp : InputSpec) (offline allow : Bool)
    (onlineDet : Except Unit DetectionResult) (onlineSum : Except Unit (List Char)) :
    Outcome :=
  match read_input inp with
  | Except.error ReadErr.usage => Outcome.usage
  | Except.error ReadErr.notFound => Outcome.ioError
  | Except.ok text =>
    if offline then
      let det := offline_detect text
      if !det.is_legal && !allow then Outcome.rejected ⟨"not_legal", det⟩
      else Outcome.success (summarise_offline text)
    else
      match onlineDet with
      | Except.error _ => Outcome.ioError
      | Except.ok det =>
        if !det.is_legal && !allow then Outcome.rejected ⟨"not_legal", det⟩
        else
          match onlineSum with
          | Except.error _ => Outcome.ioError
          | Except.ok s => Outcome.success s

/-- The process exit code of each outcome: success returns from `main`
normally (code 0), the usage hint exits with 2, rejection with 3, and the
exception handlers exit with 1. -/
def exitCode : Outcome → Nat
  | Outcome.success _ => 0
  | Outcome.usage => 2
  | Outcome.rejected _ => 3
  | Outcome.ioError => 1

/-! ### Helper lemmas -/

theorem listContains_append_self (xs nd : List Char) :
    listContains (xs ++ nd) nd = true := by
  induction xs with
  | nil =>
    cases nd with
    | nil => rfl
    | cons h t => simp [listContains, List.isPrefixOf_iff_prefix]
  | cons x xs ih => simp [listContains, ih]

theorem lowerL_append (a b : List Char) :
    lowerL (a ++ b) = lowerL a ++ lowerL b :=
  List.map_append _ a b

theorem hint_terms_lower : ∀ w ∈ HINT_TERMS, lowerL w = w := by decide

/-- Concrete input refuting C1: two keywords, fifty characters in total, but
only eighteen once stripped. -/
def exC1 : List Char :=
  "agreement contract".toList ++ List.replicate 32 ' '

/-- Concrete input refuting C2: seventeen non-whitespace characters, but no
leading or trailing whitespace, so the stripped length is the full fifty. -/
def exC2 : List Char :=
  "agreement".toList ++ List.replicate 33 ' ' ++ "contract".toList

/-! ### Claims about the legacy detector -/

/-- Refutation of claim C1 as stated: `exC1` contains two distinct keywords
of the list and has fifty characters, yet `is_probably_legal` returns false,
because the code compares the length of the stripped text against 50; the
keyword list moreover has 38 entries, not 37. -/
theorem C1_counterexample :
    2 ≤ keywordScore exC1 ∧ 50 ≤ exC1.length ∧
      LEGAL_KEYWORDS.length = 38 ∧ is_probably_legal exC1 = false :=
  ⟨by decide, by decide, by decide, by decide⟩

/-- Claim C1, amended: for every text containing at least 2 distinct keywords
of the fixed 38-entry list (case-insensitive substring, each counted once)
whose length after stripping leading and trailing whitespace is at least 50,
`is_probably_legal` returns true. -/
theorem C1_amended_keywords_and_stripped_length (t : List Char)
    (hlen : 50 ≤ (pyStrip t).length) (hkw : 2 ≤ keywordScore t) :
    is_probably_legal t = true := by
  have hne : t.isEmpty = false := by
    cases t with
    | nil => simp [pyStrip, List.dropWhile] at hlen
    | cons a l => rfl
  have h2 : ¬ (pyStrip t).length < 50 := Nat.not_lt.mpr hlen
  simp [is_probably_legal, hne, h2, hkw]

/-- Witness for the amended C1 at a concrete legal-looking sentence. -/
theorem C1_amended_witness :
    is_probably_legal
      "This Agreement is a binding contract between the parties hereto.".toList = true :=
  C1_amended_keywords_and_stripped_length _ (by decide) (by decide)

/-- Refutation of claim C2 as stated: `exC2` has seventeen non-whitespace
characters, fewer than 50, yet `is_probably_legal` returns true, because the
code measures the stripped length (interior whitespace included). -/
theorem C2_counterexample :
    nonWsCount exC2 < 50 ∧ is_probably_legal exC2 = true :=
  ⟨by decide, by decide⟩

/-- Claim C2, amended: for every text whose length after stripping leading
and trailing whitespace is below 50, `is_probably_legal` returns false,
regardless of how many keywords the text contains. -/
theorem C2_amended_stripped_short_not_legal (t : List Char)
    (h : (pyStrip t).length < 50) : is_probably_legal t = false := by
  simp [is_probably_legal, h]

/-- Witness for the amended C2 at a concrete short text. -/
theorem C2_amended_witness : is_probably_legal "hi".toList = false :=
  C2_amended_stripped_short_not_legal _ (by decide)

/-! ### Claims about the offline stub -/

/-- Claim C8: the offline stub is deterministic — its structured output is
the same for any two input texts (it performs no analysis of the input). -/
theorem C8_offline_stub_deterministic (t1 t2 : List Char) :
    summarise_offline t1 = summarise_offline t2 :=
  rfl

/-! ### Claims about the weighted detector -/

theorem score10_le_four_of_no_hint (t : List Char) (h : hasLegalHint t = false) :
    score10 t ≤ 4 := by
  simp only [score10, h, if_false, Bool.false_eq_true]
  split <;> split <;> omega

theorem six_le_score10_of_hint (t : List Char) (h : hasLegalHint t = true) :
    6 ≤ score10 t := by
  simp only [score10, h, if_true]
  split <;> split <;> omega

theorem hasLegalHint_append_term (t w : List Char) (hw : w ∈ HINT_TERMS) :
    hasLegalHint (t ++ w) = true := by
  have h1 : listContains (lowerL (t ++ w)) w = true := by
    rw [lowerL_append, hint_terms_lower w hw]
    exact listContains_append_self _ _
  have h2 : HINT_TERMS.any (fun x => listContains (lowerL (t ++ w)) x) = true :=
    List.any_eq_true.mpr ⟨w, hw, h1⟩
  simp [hasLegalHint, h2]

theorem confidence_le_two_fifths_of_no_hint (t : List Char)
    (h : hasLegalHint t = false) : (offline_detect t).confidence ≤ 2 / 5 := by
  have hs : min (score10 t) 10 ≤ 4 :=
    le_trans (min_le_left _ _) (score10_le_four_of_no_hint t h)
  have hq : ((min (score10 t) 10 : Nat) : ℚ) ≤ 4 := by exact_mod_cast hs
  show ((min (score10 t) 10 : Nat) : ℚ) / 10 ≤ 2 / 5
  linarith

theorem three_fifths_le_confidence_of_hint (t : List Char)
    (h : hasLegalHint t = true) : 3 / 5 ≤ (offline_detect t).confidence := by
  have hs : 6 ≤ min (score10 t) 10 :=
    le_min (six_le_score10_of_hint t h) (by norm_num)
  have hq : (6 : ℚ) ≤ ((min (score10 t) 10 : Nat) : ℚ) := by exact_mod_cast hs
  show (3 : ℚ) / 5 ≤ ((min (score10 t) 10 : Nat) : ℚ) / 10
  linarith

theorem confidence_nonneg (t : List Char) : 0 ≤ (offline_detect t).confidence := by
  show (0 : ℚ) ≤ ((min (score10 t) 10 : Nat) : ℚ) / 10
  positivity

theorem confidence_le_one (t : List Char) : (offline_detect t).confidence ≤ 1 := by
  have hs : min (score10 t) 10 ≤ 10 := min_le_right _ _
  have hq : ((min (score10 t) 10 : Nat) : ℚ) ≤ 10 := by exact_mod_cast hs
  show ((min (score10 t) 10 : Nat) : ℚ) / 10 ≤ 1
  linarith

/-- Claim C3: on a text without any legal-signal term, appending such a term
never decreases the reported confidence, and the confidence reported by
`offline_detect` always lies in the interval [0, 1]. -/
theorem C3_score_monotone_and_confidence_bounded (t w : List Char) :
    (w ∈ HINT_TERMS → hasLegalHint t = false →
      (offline_detect t).confidence ≤ (offline_detect (t ++ w)).confidence) ∧
    (0 ≤ (offline_detect t).confidence ∧ (offline_detect t).confidence ≤ 1) := by
  refine ⟨fun hw hno => ?_, confidence_nonneg t, confidence_le_one t⟩
  have h1 := confidence_le_two_fifths_of_no_hint t hno
  have h2 := three_fifths_le_confidence_of_hint (t ++ w)
    (hasLegalHint_append_term t w hw)
  linarith

/-- Witness for C3: appending `agreement` to `hello` raises the confidence. -/
theorem C3_witness :
    (offline_detect "hello".toList).confidence ≤
      (offline_detect ("hello".toList ++ "agreement".toList)).confidence :=
  (C3_score_monotone_and_confidence_bounded "hello".toList "agreement".toList).1
    (by decide) (by decide)

/-- Claim C9: the weighted detector reports `is_legal` exactly when the
legal-signal pattern matches, and its confidence is always one of the six
values 0, 0.2, 0.4, 0.6, 0.8, 1. -/
theorem C9_is_legal_iff_hint_confidence_quantised (t : List Char) :
    ((offline_detect t).is_legal = true ↔ hasLegalHint t = true) ∧
    ((offline_detect t).confidence = 0 ∨ (offline_detect t).confidence = 1 / 5 ∨
     (offline_detect t).confidence = 2 / 5 ∨ (offline_detect t).confidence = 3 / 5 ∨
     (offline_detect t).confidence = 4 / 5 ∨ (offline_detect t).confidence = 1) := by
  by_cases h2 : 120 < wordCount t <;>
    cases h1 : hasLegalHint t <;> cases h3 : hasCompanySuffix t <;>
      simp [offline_detect, score10, h1, h2, h3] <;> norm_num

/-- Witness for C9: a text containing `agreement` is reported legal. -/
theorem C9_witness : (offline_detect "agreement".toList).is_legal = true :=
  (C9_is_legal_iff_hint_confidence_quantised "agreement".toList).1.mpr (by decide)

/-! ### Claims about the online retry paths -/

/-- Claim C6: in the online summarisation path a failing first structured
attempt is retried exactly once, with the minified-JSON instruction appended
and the JSON constraint dropped; the final result is the re-serialised parse
of the retried response or, failing that, its raw text; at most two requests
are ever issued. -/
theorem C6_single_retry_then_degrade (text : List Char) (att1 : Option ModelResp)
    (att2 : ModelResp) :
    ((summarise_online text att1 att2).2.length ≤ 2) ∧
    (∀ r1 j, att1 = some r1 → r1.parsed = some j →
      summarise_online text att1 att2 =
        (SumResult.structured j, [⟨sumMessages text, true, 1/5⟩])) ∧
    ((att1 = none ∨ ∃ r1, att1 = some r1 ∧ r1.parsed = none) →
      (summarise_online text att1 att2).2 =
        [⟨sumMessages text, true, 1/5⟩,
         ⟨sumMessages text ++ [minifiedInstr], false, 1/5⟩] ∧
      ((∃ j, att2.parsed = some j ∧
          (summarise_online text att1 att2).1 = SumResult.structured j) ∨
       (att2.parsed = none ∧
          (summarise_online text att1 att2).1 = SumResult.degraded att2.raw))) := by
  rcases att1 with _ | r1
  · rcases h2 : att2.parsed with _ | j <;>
      simp [summarise_online, h2]
  · rcases h1 : r1.parsed with _ | j
    · rcases h2 : att2.parsed with _ | j <;>
        simp [summarise_online, h1, h2] <;> rintro r j rfl <;> simp [h1]
    · simp [summarise_online, h1]
      rintro r j1 rfl hp
      rw [h1] at hp
      exact Option.some.inj hp

/-- Witness for C6: a first attempt whose content fails to parse is followed
by exactly the relaxed retry, and an unparsable retry degrades to raw text. -/
theorem C6_witness :
    (summarise_online [] (some ⟨"x".toList, none⟩) ⟨"raw".toList, none⟩).2 =
      [⟨sumMessages [], true, 1/5⟩,
       ⟨sumMessages [] ++ [minifiedInstr], false, 1/5⟩] ∧
    ((∃ j, (⟨"raw".toList, none⟩ : ModelResp).parsed = some j ∧
        (summarise_online [] (some ⟨"x".toList, none⟩) ⟨"raw".toList, none⟩).1 =
          SumResult.structured j) ∨
     ((⟨"raw".toList, none⟩ : ModelResp).parsed = none ∧
        (summarise_online [] (some ⟨"x".toList, none⟩) ⟨"raw".toList, none⟩).1 =
          SumResult.degraded "raw".toList)) :=
  (C6_single_retry_then_degrade [] (some ⟨"x".toList, none⟩) ⟨"raw".toList, none⟩).2.2
    (Or.inr ⟨⟨"x".toList, none⟩, rfl, rfl⟩)

/-- Claim C7: in the online classification path a failing first constrained
attempt is retried exactly once, with the valid-JSON-only instruction
appended; a parse failure of the retried response propagates as an error,
and a successful result always comes from an actual parse, never a default. -/
theorem C7_classification_retry_propagates_failure (text : List Char)
    (att1 : Option ModelResp) (att2 : ModelResp) :
    ((classify_online text att1 att2).2.length ≤ 2) ∧
    (∀ r1 j, att1 = some r1 → r1.parsed = some j →
      classify_online text att1 att2 =
        (Except.ok j, [⟨classifyMessages text, true, 0⟩])) ∧
    ((att1 = none ∨ ∃ r1, att1 = some r1 ∧ r1.parsed = none) →
      (classify_online text att1 att2).2 =
        [⟨classifyMessages text, true, 0⟩,
         ⟨classifyMessages text ++ [jsonOnlyInstr], false, 0⟩] ∧
      (att2.parsed = none →
        (classify_online text att1 att2).1 = Except.error ())) ∧
    (∀ j, (classify_online text att1 att2).1 = Except.ok j →
      (∃ r1, att1 = some r1 ∧ r1.parsed = some j) ∨ att2.parsed = some j) := by
  rcases att1 with _ | r1
  · rcases h2 : att2.parsed with _ | j <;>
      simp [classify_online, h2]
  · rcases h1 : r1.parsed with _ | j
    · rcases h2 : att2.parsed with _ | j <;>
        simp [classify_online, h1, h2] <;> rintro r j rfl <;> simp [h1]
    · simp [classify_online, h1]
      rintro r j1 rfl hp
      rw [h1] at hp
      exact Option.some.inj hp

/-- Witness for C7: an unparsable first response followed by an unparsable
retry produces an error, after exactly the one relaxed retry. -/
theorem C7_witness :
    (classify_online [] (some ⟨"y".toList, none⟩) ⟨"z".toList, none⟩).2 =
      [⟨classifyMessages [], true, 0⟩,
       ⟨classifyMessages [] ++ [jsonOnlyInstr], false, 0⟩] ∧
    ((⟨"z".toList, none⟩ : ModelResp).parsed = none →
      (classify_online [] (some ⟨"y".toList, none⟩) ⟨"z".toList, none⟩).1 =
        Except.error ()) :=
  ((C7_classification_retry_propagates_failure [] (some ⟨"y".toList, none⟩)
      ⟨"z".toList, none⟩).2.2.1 (Or.inr ⟨⟨"y".toList, none⟩, rfl, rfl⟩))

/-! ### Claims about the orchestrator -/

theorem exitCode_le_three (o : Outcome) : exitCode o ≤ 3 := by
  cases o <;> simp [exitCode]

theorem exitCode_eq_zero_iff (o : Outcome) :
    exitCode o = 0 ↔ ∃ s, o = Outcome.success s := by
  cases o <;> simp [exitCode]

theorem exitCode_eq_one_iff (o : Outcome) :
    exitCode o = 1 ↔ o = Outcome.ioError := by
  cases o <;> simp [exitCode]

theorem exitCode_eq_two_iff (o : Outcome) :
    exitCode o = 2 ↔ o = Outcome.usage := by
  cases o <;> simp [exitCode]

theorem exitCode_eq_three_iff (o : Outcome) :
    exitCode o = 3 ↔ ∃ env, o = Outcome.rejected env := by
  cases o <;> simp [exitCode]

theorem read_input_usage_iff (inp : InputSpec) :
    read_input inp = Except.error ReadErr.usage ↔
      ∃ c, inp = InputSpec.dash true c := by
  cases inp with
  | filePath oc => rcases oc <;> simp [read_input]
  | dash tty c => cases tty <;> simp [read_input]

theorem main_usage_iff (inp : InputSpec) (offline allow : Bool)
    (od : Except Unit DetectionResult) (os : Except Unit (List Char)) :
    main inp offline allow od os = Outcome.usage ↔
      ∃ c, inp = InputSpec.dash true c := by
  rw [← read_input_usage_iff]
  cases hread : read_input inp with
  | error e => cases e <;> simp [main, hread]
  | ok u =>
    simp only [main, hread]
    constructor
    · intro h
      cases offline with
      | true =>
        rcases h2 : (!(offline_detect u).is_legal && !allow) <;> simp [h2] at h
      | false =>
        cases od with
        | error e => simp at h
        | ok det =>
          rcases h2 : (!det.is_legal && !allow) <;> simp [h2] at h
          cases os <;> simp at h
    · intro h
      simp at h

theorem main_rejected_iff (inp : InputSpec) (offline allow : Bool)
    (od : Except Unit DetectionResult) (os : Except Unit (List Char)) :
    (∃ env, main inp offline allow od os = Outcome.rejected env) ↔
      ∃ u, read_input inp = Except.ok u ∧ allow = false ∧
        ((offline = true ∧ (offline_detect u).is_legal = false) ∨
         (offline = false ∧ ∃ det, od = Except.ok det ∧ det.is_legal = false)) := by
  cases hread : read_input inp with
  | error e => cases e <;> simp [main, hread]
  | ok u =>
    cases offline with
    | true =>
      cases allow <;> cases hl : (offline_detect u).is_legal <;>
        simp [main, hread, hl]
    | false =>
      cases od with
      | error e => cases allow <;> cases os <;> simp [main, hread]
      | ok det =>
        cases allow <;> cases hl : det.is_legal <;> cases os <;>
          simp [main, hread, hl]

theorem main_success_imp (inp : InputSpec) (offline allow : Bool)
    (od : Except Unit DetectionResult) (os : Except Unit (List Char))
    (s : List Char) (hs : main inp offline allow od os = Outcome.success s) :
    allow = true ∨ ∃ u, read_input inp = Except.ok u ∧
      ((offline = true ∧ (offline_detect u).is_legal = true) ∨
       (offline = false ∧ ∃ det, od = Except.ok det ∧ det.is_legal = true)) := by
  cases hallow : allow with
  | true => exact Or.inl rfl
  | false =>
    right
    subst hallow
    cases hread : read_input inp with
    | error e => cases e <;> simp [main, hread] at hs
    | ok u =>
      refine ⟨u, rfl, ?_⟩
      cases offline with
      | true =>
        cases hl : (offline_detect u).is_legal with
        | false => simp [main, hread, hl] at hs
        | true => exact Or.inl ⟨rfl, rfl⟩
      | false =>
        cases od with
        | error e => simp [main, hread] at hs
        | ok det =>
          cases hl : det.is_legal with
          | false => simp [main, hread, hl] at hs
          | true => exact Or.inr ⟨rfl, det, rfl, hl⟩

/-- Claim C4: when the detector reports non-legal and the override flag is
unset, the structured CLI emits the rejection envelope holding the full
detection record and exits with code 3, in offline and online mode alike,
and a summary outcome only ever arises with the override flag set or a
detection record saying legal. -/
theorem C4_rejection_envelope_no_summary (inp : InputSpec)
    (offline allow : Bool) (od : Except Unit DetectionResult)
    (os : Except Unit (List Char)) (text : List Char) :
    (read_input inp = Except.ok text → offline = true → allow = false →
      (offline_detect text).is_legal = false →
      main inp offline allow od os =
          Outcome.rejected ⟨"not_legal", offline_detect text⟩ ∧
        exitCode (main inp offline allow od os) = 3) ∧
    (∀ det, read_input inp = Except.ok text → offline = false → allow = false →
      od = Except.ok det → det.is_legal = false →
      main inp offline allow od os = Outcome.rejected ⟨"not_legal", det⟩ ∧
        exitCode (main inp offline allow od os) = 3) ∧
    (∀ s, main inp offline allow od os = Outcome.success s →
      allow = true ∨ ∃ u, read_input inp = Except.ok u ∧
        ((offline = true ∧ (offline_detect u).is_legal = true) ∨
         (offline = false ∧ ∃ det, od = Except.ok det ∧ det.is_legal = true))) := by
  refine ⟨?_, ?_, fun s hs => main_success_imp inp offline allow od os s hs⟩
  · rintro hread rfl rfl hl
    have h : main inp true false od os =
        Outcome.rejected ⟨"not_legal", offline_detect text⟩ := by
      simp [main, hread, hl]
    exact ⟨h, by rw [h]; rfl⟩
  · rintro det hread rfl rfl rfl hl
    have h : main inp false false (Except.ok det) os =
        Outcome.rejected ⟨"not_legal", det⟩ := by
      simp [main, hread, hl]
    exact ⟨h, by rw [h]; rfl⟩

/-- Witness for C4: the spec example `hello world` is rejected in offline
mode with the envelope carrying the heuristic detection record. -/
theorem C4_witness :
    main (InputSpec.dash false "hello world".toList) true false
        (Except.error ()) (Except.error ()) =
      Outcome.rejected ⟨"not_legal", offline_detect "hello world".toList⟩ ∧
    exitCode (main (InputSpec.dash false "hello world".toList) true false
        (Except.error ()) (Except.error ())) = 3 :=
  (C4_rejection_envelope_no_summary (InputSpec.dash false "hello world".toList)
      true false (Except.error ()) (Except.error ()) "hello world".toList).1
    rfl rfl rfl (by decide)

/-- Refutation of claim C5 as stated: empty piped input is read successfully
and, in offline mode without override, is rejected with exit code 3, not
treated as the empty-input usage error with exit code 2 the claim requires. -/
theorem C5_counterexample_empty_input :
    read_input (InputSpec.dash false []) = Except.ok [] ∧
    exitCode (main (InputSpec.dash false []) true false
        (Except.error ()) (Except.error ())) = 3 ∧
    exitCode (main (InputSpec.dash false []) true false
        (Except.error ()) (Except.error ())) ≠ 2 :=
  ⟨rfl, rfl, by decide⟩

/-- Claim C5, amended: the structured CLI exits with 0 on success, 1 on
input/IO or unclassified runtime error, 2 on the no-input-provided usage
error (interactive stdin and no path), and 3 on rejection as non-legal
without override; empty input is not detected separately and simply flows
into detection. -/
theorem C5_amended_exit_code_mapping (inp : InputSpec) (offline allow : Bool)
    (od : Except Unit DetectionResult) (os : Except Unit (List Char)) :
    (exitCode (main inp offline allow od os) ≤ 3) ∧
    (exitCode (main inp offline allow od os) = 0 ↔
      ∃ s, main inp offline allow od os = Outcome.success s) ∧
    (exitCode (main inp offline allow od os) = 1 ↔
      main inp offline allow od os = Outcome.ioError) ∧
    (exitCode (main inp offline allow od os) = 2 ↔
      ∃ c, inp = InputSpec.dash true c) ∧
    (exitCode (main inp offline allow od os) = 3 ↔
      ∃ u, read_input inp = Except.ok u ∧ allow = false ∧
        ((offline = true ∧ (offline_detect u).is_legal = false) ∨
         (offline = false ∧ ∃ det, od = Except.ok det ∧ det.is_legal = false))) := by
  refine ⟨exitCode_le_three _, exitCode_eq_zero_iff _, exitCode_eq_one_iff _, ?_, ?_⟩
  · rw [exitCode_eq_two_iff]
    exact main_usage_iff inp offline allow od os
  · rw [exitCode_eq_three_iff]
    exact main_rejected_iff inp offline allow od os

/-- Witness for the amended C5: an interactive terminal with no piped input
exits with the usage code 2. -/
theorem C5_amended_witness :
    exitCode (main (InputSpec.dash true []) false false
        (Except.error ()) (Except.error ())) = 2 :=
  (C5_amended_exit_code_mapping (InputSpec.dash true []) false false
      (Except.error ()) (Except.error ())).2.2.2.1.mpr ⟨[], rfl⟩

end LegalSummariser
